import Mathlib

/-!
# Verification of readImageScopeXML

A shallow embedding of `src/lib.rs` (library crate `read_image_scope_xml`):
a batch tool that reads ImageScope XML annotation files, reconciles
user-drawn regions (annotation layers of type "4") with computed analysis
layers (type "3"), and prints one CSV row per reconciled region.

The embedding follows the Rust source statement by statement:

* the serde data model (`Annotations`, `Annotation`, `Regions`, `Region`,
  `AttributeHeader`, ...) becomes plain Lean structures;
* the per-file `HashMap<String, RegionInfo>` accumulator becomes an
  association list with a find-or-create update (`updateRegion`), which is
  exactly the behaviour of `regions_info.entry(id).or_insert(RegionInfo::new())`
  followed by a setter (one entry per key; the entry with the given key is
  updated in place, a missing key is created);
* `f32` values never take part in arithmetic in the tool - they are only
  parsed from attribute text and reprinted - so they are modelled by `F32`:
  either NaN (the `unwrap_or(std::f32::NAN)` fallback) or a numeric value
  carried as its trimmed source token;
* Rust string/path helpers used by the source (`str::starts_with`,
  `str::trim`, `str::parse::<f32>`, `Path::file_name`) are modelled over
  `List Char` with the semantics of the Rust standard library;
* stdout rows and stderr warnings become explicit lists; the
  `.expect(..)` panic in `parse_xml` becomes an aborting (`none`-like)
  outcome of the whole batch (`runBatch` returns an `aborted` flag);
* the external collaborators declared out of scope (directory listing and
  the quick-xml deserializer) are inputs: files arrive as a list of
  `(filename, read result)` pairs and the deserializer is a function
  parameter `String → Option Annotations`.
-/

namespace ScopeXml

/-! ## Rust standard-library string and path helpers (modelled) -/

/-- Model of Rust `str::starts_with(pat)`: `strStartsWith s p` is true when
`p` is a prefix of `s`. -/
def strStartsWith (s p : String) : Bool :=
  p.data.isPrefixOf s.data

/-- Model of Rust `str::trim`: drop leading and trailing whitespace. -/
def strTrim (s : String) : String :=
  ⟨((s.data.dropWhile Char.isWhitespace).reverse.dropWhile Char.isWhitespace).reverse⟩

/-- Exponent part of an `f32` literal after `e`/`E`: optional sign then a
nonempty digit string (models the grammar accepted by Rust
`str::parse::<f32>`). -/
def expOk : List Char → Bool
  | [] => false
  | '+' :: ds => ds != [] && ds.all Char.isDigit
  | '-' :: ds => ds != [] && ds.all Char.isDigit
  | ds => ds.all Char.isDigit

/-- Mantissa of an `f32` literal: digits, optionally split by one dot, with
at least one digit overall (models Rust `str::parse::<f32>`). -/
def mantissaOk (cs : List Char) : Bool :=
  match List.splitOn '.' cs with
  | [ds] => ds != [] && ds.all Char.isDigit
  | [as, bs] => (as != [] || bs != []) && as.all Char.isDigit && bs.all Char.isDigit
  | _ => false

/-- Model of the success domain of Rust `str::parse::<f32>`: optional sign,
then `inf`/`infinity`/`nan` (case-insensitive) or mantissa with optional
exponent. The tool only needs to know whether parsing succeeds. -/
def parsesAsF32 (s : String) : Bool :=
  let cs := match s.data with
    | '+' :: rest => rest
    | '-' :: rest => rest
    | cs => cs
  let low := cs.map Char.toLower
  if low = ['i', 'n', 'f'] || low = ['i', 'n', 'f', 'i', 'n', 'i', 't', 'y'] ||
      low = ['n', 'a', 'n'] then true
  else
    let mant := cs.takeWhile (fun c => c != 'e' && c != 'E')
    match cs.dropWhile (fun c => c != 'e' && c != 'E') with
    | [] => mantissaOk mant
    | _ :: es => mantissaOk mant && expOk es

/-- An `f32` as the tool uses it: the tool never computes with floats, it
only parses attribute text and reprints it, so a value is either NaN or a
number carried as its trimmed source token. -/
inductive F32 where
  | nan : F32
  | num : String → F32
deriving DecidableEq, Repr

/-- Model of `value.trim().parse::<f32>().unwrap_or(std::f32::NAN)` from
the source: trim, then the parsed number on success and NaN on failure. -/
def parseF32orNaN (v : String) : F32 :=
  let t := strTrim v
  if parsesAsF32 t then F32.num t else F32.nan

/-- Model of Rust `Path::file_name` on the paths the tool builds from
strings: the last path component, or `none` for the empty path, a root
path, or a path ending in `..` (`.` and empty components are ignored, as
in Rust's component normalisation). -/
def path_file_name (p : String) : Option String :=
  let comps := (List.splitOn '/' p.data).filter (fun c => c != [] && c != ['.'])
  match comps.getLast? with
  | none => none
  | some c => if c = ['.', '.'] then none else some ⟨c⟩

/-- Model of Rust `Display` for the `f32` values the tool prints: NaN
prints as `"NaN"`, a parsed numeric value reprints as its token. -/
def displayF32 : F32 → String
  | F32.nan => "NaN"
  | F32.num s => s

/-! ## Data model (the serde structures of `lib.rs`) -/

/-- `struct AttributeHeader` (`@Id`, `@Name`). -/
structure AttributeHeader where
  id : String
  name : String
deriving DecidableEq, Repr

/-- `struct RegionAttributeHeaders` (`AttributeHeader` list, optional). -/
structure RegionAttributeHeaders where
  attribute_header : Option (List AttributeHeader)
deriving DecidableEq, Repr

/-- `struct RegionAttributesAttribute` (`@Name`, `@Id`, `@Value`,
`@DisplayColor`). -/
structure RegionAttributesAttribute where
  name : String
  id : String
  value : String
  display_color : String
deriving DecidableEq, Repr

/-- `struct RegionAttributes`: the optional `Attribute` vector of a region
(the Rust field is called `attribute`; that word is a Lean keyword, so the
field is named `attribute_vec` here). -/
structure RegionAttributes where
  attribute_vec : Option (List RegionAttributesAttribute)
deriving DecidableEq, Repr

/-- `struct Region`: one region element, fields in source order. Note that
the deserialized model has no back-reference (`InputRegionId`) field; an
`InputRegionId` XML attribute would simply be dropped by the
deserializer. -/
structure Region where
  id : String
  region_type : String
  length : String
  area : String
  length_microns : String
  area_microns : String
  text : String
  negative_roa : String
  analyze : String
  attributes : RegionAttributes
  image_location : Option String
deriving DecidableEq, Repr

/-- `struct Regions`: the `Regions` block of a layer. -/
structure Regions where
  region_attribute_headers : RegionAttributeHeaders
  region : List Region
deriving DecidableEq, Repr

/-- `struct AnnotationAttributesAttribute` (layer-level attribute,
unused by the reconciler). -/
structure AnnotationAttributesAttribute where
  name : String
  id : String
  value : String
deriving DecidableEq, Repr

/-- `struct AnnotationAttributes` (optional layer-level attribute vector;
the Rust field `attribute` is a Lean keyword, hence `attribute_vec`). -/
structure AnnotationAttributes where
  attribute_vec : Option (List AnnotationAttributesAttribute)
deriving DecidableEq, Repr

/-- The Rust `struct Annotation`: one annotation layer with `@Id`,
`@Name`, `@Type` (`"4"` = user-drawn, `"3"` = computed), its layer-level
attributes and its `Regions` block. (Named `AnnotationLayer` in Lean.) -/
structure AnnotationLayer where
  id : String
  name : String
  annotation_type : String
  attributes : AnnotationAttributes
  regions : Regions
deriving DecidableEq, Repr

/-- The Rust `struct Annotations`: the document root, with
`@MicronsPerPixel` and the layer vector (the Rust vector field is a word
that triggers keyword issues, hence `annotation_vec`). -/
structure Annotations where
  microns_per_pixel : String
  annotation_vec : List AnnotationLayer
deriving DecidableEq, Repr

/-! ## The accumulator (`struct RegionInfo` and the `HashMap`) -/

/-- `struct RegionInfo`: the per-region accumulator record, fields in
source order. -/
structure RegionInfo where
  text_label : Option String
  image_location : Option String
  num_positive : Option F32
  num_total : Option F32
  positivity : Option F32
deriving DecidableEq, Repr

/-- `RegionInfo::new()`: all fields unset. -/
def RegionInfo.new : RegionInfo :=
  { text_label := none, image_location := none, num_positive := none,
    num_total := none, positivity := none }

/-- The `HashMap<String, RegionInfo>` accumulator, as an association list
with unique keys (a `HashMap` holds one entry per key; its iteration
order is unspecified and is treated separately at emission). -/
abbrev RegionsInfo := List (String × RegionInfo)

/-- `regions_info.entry(k).or_insert(RegionInfo::new())` followed by a
setter `f`: update the entry with key `k` in place, or create it from
`RegionInfo::new()` if no entry has that key. -/
def updateRegion : RegionsInfo → String → (RegionInfo → RegionInfo) → RegionsInfo
  | [], k, f => [(k, f RegionInfo.new)]
  | p :: m, k, f => if p.1 == k then (p.1, f p.2) :: m else p :: updateRegion m k f

/-- `regions_info.get(k)`: the record stored under key `k`, if any. -/
def lookupRegion (m : RegionsInfo) (k : String) : Option RegionInfo :=
  (m.find? (fun p => p.1 == k)).map Prod.snd

/-! ## The region reconciler (`run`, lines 97-194 of `lib.rs`) -/

/-- The body of the inner attribute loop of the type-"3" arm: compare the
attribute's `@Name` against the three resolved header ids (`positivity_name`,
`num_positive_name`, `num_total_name`) and store the trimmed, parsed value
(NaN on parse failure) in the record keyed by the region's own id `rid`. -/
def applyRegionAttrib (pN npN ntN rid : String) (m : RegionsInfo)
    (a : RegionAttributesAttribute) : RegionsInfo :=
  let m := if a.name == pN then
    updateRegion m rid (fun ri => { ri with positivity := some (parseF32orNaN a.value) })
  else m
  let m := if a.name == npN then
    updateRegion m rid (fun ri => { ri with num_positive := some (parseF32orNaN a.value) })
  else m
  if a.name == ntN then
    updateRegion m rid (fun ri => { ri with num_total := some (parseF32orNaN a.value) })
  else m

/-- One region of a valid type-"3" layer (source lines 141-185): store the
basename of the image location (when the path has one) and then fold the
attribute loop over the region's attributes. All writes are keyed by the
region's own id `r.id`. -/
def processRegion3 (pN npN ntN : String) (m : RegionsInfo) (r : Region) : RegionsInfo :=
  let m := match path_file_name ((r.image_location).getD "") with
    | some lp => updateRegion m r.id (fun ri => { ri with image_location := some lp })
    | none => m
  match r.attributes.attribute_vec with
  | some attrs => attrs.foldl (applyRegionAttrib pN npN ntN r.id) m
  | none => m

/-- One annotation layer (the `match layer.annotation_type` of `run`).
The state is the accumulator map together with the stderr warnings emitted
so far. Type "4" stores each region's text label under the region's id;
type "3" first requires the attribute-header list, then resolves the three
header slots by name prefix (`"Positivity ="`, `"Np  ="`, `"NTotal ="`),
skipping the layer with a warning when the list or any slot is missing;
any other type is ignored. -/
def processLayer (filepath : String) (st : RegionsInfo × List String)
    (layer : AnnotationLayer) : RegionsInfo × List String :=
  if layer.annotation_type = "4" then
    (layer.regions.region.foldl
      (fun m r => updateRegion m r.id (fun ri => { ri with text_label := some r.text }))
      st.1,
     st.2)
  else if layer.annotation_type = "3" then
    match layer.regions.region_attribute_headers.attribute_header with
    | some hdrs =>
      match hdrs.find? (fun a => strStartsWith a.name "Positivity ="),
            hdrs.find? (fun a => strStartsWith a.name "Np  ="),
            hdrs.find? (fun a => strStartsWith a.name "NTotal =") with
      | none, _, _ => (st.1, st.2 ++ ["Missing positivity in " ++ filepath])
      | some _, none, _ => (st.1, st.2 ++ ["Missing number positive in " ++ filepath])
      | some _, some _, none => (st.1, st.2 ++ ["Missing number total in " ++ filepath])
      | some pa, some npa, some nta =>
        (layer.regions.region.foldl (processRegion3 pa.id npa.id nta.id) st.1, st.2)
    | none =>
      (st.1, st.2 ++ ["In " ++ filepath ++ ": Type 3 annotation layer is missing Region Attribute header"])
  else st

/-- The reconciler for one file: fold the layer loop over the document's
layers, starting from an empty map and no warnings. -/
def processFile (filepath : String) (ann : Annotations) : RegionsInfo × List String :=
  ann.annotation_vec.foldl (processLayer filepath) ([], [])

/-! ## The row emitter (source lines 82 and 197-199) -/

/-- The header row printed by `run` before the file loop. -/
def headerRow : String :=
  "Filename,Slide name,Region ID,text label,positivity,num positive,num total"

/-- One data row: the `println!("{}, {}, {}, {}, {}, {}, {}", ...)` of the
emission loop - filename, stored image location (`""` if unset), region
id, text label (`""` if unset), then positivity, num positive and num
total, each NaN if unset. The fields are separated by a comma and a
space. -/
def emitRow (filename rid : String) (ri : RegionInfo) : String :=
  filename ++ ", " ++ ((ri.image_location).getD "") ++ ", " ++ rid ++ ", " ++
    ((ri.text_label).getD "") ++ ", " ++ displayF32 ((ri.positivity).getD F32.nan) ++ ", " ++
    displayF32 ((ri.num_positive).getD F32.nan) ++ ", " ++ displayF32 ((ri.num_total).getD F32.nan)

/-- The rows of one file in the order the map entries are visited; the
`HashMap` iteration order is unspecified, so claims about output order
quantify over permutations of the reconciled entries. -/
def emitFileRows (filename : String) (entries : RegionsInfo) : List String :=
  entries.map (fun p => emitRow filename p.1 p.2)

/-! ## Specification-side descriptions (used only to compare with the
code-side definitions above) -/

/-- Follows the amended wording of the row-format claim: the seven emitted
fields of a data row, in order - source filename, stored image-location
basename (empty if unset), region id, text label as stored (empty if
unset), positivity, num positive and num total (each NaN if unset). -/
def rowFields (filename rid : String) (ri : RegionInfo) : List String :=
  [filename,
   (ri.image_location).getD "",
   rid,
   (ri.text_label).getD "",
   displayF32 ((ri.positivity).getD F32.nan),
   displayF32 ((ri.num_positive).getD F32.nan),
   displayF32 ((ri.num_total).getD F32.nan)]

/-- Follows the amended wording of the row-format claim: a data row is the
seven fields joined by `", "`. -/
def specDataRow (filename rid : String) (ri : RegionInfo) : String :=
  String.intercalate ", " (rowFields filename rid ri)

/-! ## The file loop (`parse_xml` and the batch part of `run`) -/

/-- `read_to_string(path).unwrap_or_default()`: a failed file read is
replaced by the empty string. The read outcome is the input (`none` for a
read error). -/
def read_to_string (contents : Option String) : String :=
  contents.getD ""

/-- `parse_xml`: read the file (errors ignored), then deserialize. The
quick-xml deserializer is an external collaborator, passed as a function;
`none` models a deserialization error, on which the source calls
`.expect("Error reading XML")` and panics. -/
def parse_xml (deserialize : String → Option Annotations) (contents : Option String) :
    Option Annotations :=
  deserialize (read_to_string contents)

/-- The per-file loop of `run` over the XML files of the search directory
(directory listing is external: files arrive as `(filename, read result)`
pairs). Returns the emitted data rows and an `aborted` flag: a
deserialization failure panics via `.expect`, so it stops the whole batch
on the spot - nothing is emitted for that file or any later file. Rows of
one file are listed in the accumulator's entry order; the real `HashMap`
iteration order is unspecified (see the permutation-based claims). -/
def runBatch (deserialize : String → Option Annotations) :
    List (String × Option String) → List String × Bool
  | [] => ([], false)
  | (f, c) :: rest =>
    match parse_xml deserialize c with
    | none => ([], true)
    | some ann =>
      let st := processFile f ann
      let out := runBatch deserialize rest
      (emitFileRows f st.1 ++ out.1, out.2)

/-! ## Concrete inputs used by the witnesses and counterexamples -/

/-- A region with only the fields the reconciler reads; the geometry
fields are placeholders. -/
def mkRegion (rid text : String) (img : Option String)
    (attrs : Option (List RegionAttributesAttribute)) : Region :=
  { id := rid, region_type := "0", length := "0", area := "0",
    length_microns := "0", area_microns := "0", text := text,
    negative_roa := "0", analyze := "0",
    attributes := { attribute_vec := attrs }, image_location := img }

/-- A region attribute with a name and value (id and display colour are
placeholders). -/
def mkAttrib (n v : String) : RegionAttributesAttribute :=
  { name := n, id := "0", value := v, display_color := "0" }

/-- An attribute header with id and name. -/
def mkHeader (i n : String) : AttributeHeader :=
  { id := i, name := n }

/-- A layer with the given id, type, optional headers and regions. -/
def mkLayer (lid ty : String) (hdrs : Option (List AttributeHeader))
    (rs : List Region) : AnnotationLayer :=
  { id := lid, name := "L", annotation_type := ty,
    attributes := { attribute_vec := none },
    regions := { region_attribute_headers := { attribute_header := hdrs }, region := rs } }

/-- A document with the given layers. -/
def mkDoc (layers : List AnnotationLayer) : Annotations :=
  { microns_per_pixel := "0.5", annotation_vec := layers }

/-- A type-4 region labelled `Tumor` with id `1`, plus a type-3 layer
whose region has its own id `2` and carries the computed statistics (the
spec's back-reference scenario: in the XML this region would say
`InputRegionId="1"`, an attribute the deserialized model does not keep). -/
def demoDocC1 : Annotations := mkDoc
  [mkLayer "10" "4" none [mkRegion "1" "Tumor" none none],
   mkLayer "11" "3"
     (some [mkHeader "A" "Positivity = NPositive/NTotal",
            mkHeader "B" "Np  = Number positive pixels",
            mkHeader "E" "NTotal = Total number pixels"])
     [mkRegion "2" "" none
       (some [mkAttrib "A" "0.42", mkAttrib "B" "100", mkAttrib "E" "500"])]]

/-- A type-3 layer whose header list resolves the three slots the code
looks for but has no `Nwp =` and no `Nsp =` header. -/
def demoDocC2 : Annotations := mkDoc
  [mkLayer "11" "3"
     (some [mkHeader "A" "Positivity = NPositive/NTotal",
            mkHeader "B" "Np  = Number positive pixels",
            mkHeader "E" "NTotal = Total number pixels"])
     [mkRegion "7" "" none (some [mkAttrib "E" "500"])]]

/-- A one-layer document used by the batch counterexample. -/
def demoDocC3 : Annotations := mkDoc
  [mkLayer "10" "4" none [mkRegion "1" "Tumor" none none]]

/-- A stand-in for the external quick-xml deserializer: succeeds exactly
on the content `"GOOD"`. -/
def demoDeserialize (s : String) : Option Annotations :=
  if s = "GOOD" then some demoDocC3 else none

/-- The reconciled record of the spec's example scenario (label, and the
three numeric statistics of the code's three slots). -/
def demoInfoC5 : RegionInfo :=
  { text_label := some "Tumor", image_location := none,
    num_positive := some (F32.num "100"), num_total := some (F32.num "500"),
    positivity := some (F32.num "0.42") }

/-- A type-3 layer carrying all five header names of the spec; its region
has one attribute whose name is the id of the `Nwp =` header. -/
def demoDocC6 : Annotations := mkDoc
  [mkLayer "11" "3"
     (some [mkHeader "A" "Positivity = NPositive/NTotal",
            mkHeader "B" "Np  = Number positive pixels",
            mkHeader "C" "Nwp = Number weak positive pixels",
            mkHeader "D" "Nsp = Number strong positive pixels",
            mkHeader "E" "NTotal = Total number pixels"])
     [mkRegion "1" "" none (some [mkAttrib "C" "10"])]]

/-- Two reconciled entries, listed in region-id order. -/
def cexEntriesA : RegionsInfo :=
  [("1", { RegionInfo.new with text_label := some "a" }),
   ("2", { RegionInfo.new with text_label := some "b" })]

/-- The same two entries in the opposite order (another possible
`HashMap` iteration order of the same map). -/
def cexEntriesB : RegionsInfo :=
  [("2", { RegionInfo.new with text_label := some "b" }),
   ("1", { RegionInfo.new with text_label := some "a" })]

/-- A type-3 region whose image location has a directory prefix; used by
the image-location witness. -/
def demoRegionC10 : Region :=
  mkRegion "9" "" (some "dir/img.tif") none

/-- A type-3 region with neither image location nor attributes; used by
the key-redirection witness. -/
def demoRegionC1 : Region :=
  mkRegion "2" "" none none

/-- A type-3 layer whose header list has no `Positivity =` header. -/
def demoLayerC2 : AnnotationLayer :=
  mkLayer "11" "3"
    (some [mkHeader "B" "Np  = Number positive pixels",
           mkHeader "E" "NTotal = Total number pixels"])
    []

/-- A type-4 layer writing the label of region `1` twice. -/
def demoLayerC9 : AnnotationLayer :=
  mkLayer "10" "4" none
    [mkRegion "1" "first" none none, mkRegion "1" "second" none none]

/-- A type-3 region with a single attribute on the positivity slot id `A`
whose value does not parse as a number. -/
def demoRegionC6 : Region :=
  mkRegion "5" "" none (some [mkAttrib "A" "not-a-number"])

/-- Invariant used for the image-location claim: every record stored under
`rid` has image-location field `x`, and `x` is `none` while no record is
stored under `rid`. -/
abbrev ImgInv (rid : String) (x : Option String) (m : RegionsInfo) : Prop :=
  (∀ ri, lookupRegion m rid = some ri → ri.image_location = x) ∧
  (lookupRegion m rid = none → x = none)

/-! ## Helper lemmas about the accumulator operations -/

/-- A property preserved by every step of a left fold holds of the fold. -/
theorem foldl_preserve {α β : Type} (P : α → Prop) (step : α → β → α)
    (h : ∀ a b, P a → P (step a b)) :
    ∀ (l : List β) (a : α), P a → P (l.foldl step a)
  | [], _, ha => ha
  | b :: l, a, ha => foldl_preserve P step h l (step a b) (h a b ha)

/-- Looking up the key just updated finds the updated (or freshly created)
record. -/
theorem lookup_update_self (m : RegionsInfo) (k : String) (f : RegionInfo → RegionInfo) :
    lookupRegion (updateRegion m k f) k =
      some (f ((lookupRegion m k).getD RegionInfo.new)) := by
  induction m with
  | nil => simp [updateRegion, lookupRegion, List.find?]
  | cons p m ih =>
    cases hpk : p.1 == k with
    | true => simp [updateRegion, hpk, lookupRegion, List.find?]
    | false =>
      simp only [updateRegion, hpk, Bool.false_eq_true, if_false]
      simp only [lookupRegion, List.find?, hpk] at ih ⊢
      exact ih

/-- Updating key `k` does not change the record stored under a different
key `q`. -/
theorem lookup_update_other (m : RegionsInfo) (k q : String)
    (f : RegionInfo → RegionInfo) (hq : q ≠ k) :
    lookupRegion (updateRegion m k f) q = lookupRegion m q := by
  induction m with
  | nil =>
    have hkq : (k == q) = false := by
      simp only [beq_eq_false_iff_ne]
      exact fun h => hq h.symm
    simp [updateRegion, lookupRegion, List.find?, hkq]
  | cons p m ih =>
    cases hpk : p.1 == k with
    | true =>
      have hp : p.1 = k := by simpa using hpk
      have hpq : (p.1 == q) = false := by
        simp only [beq_eq_false_iff_ne, hp]
        exact fun h => hq h.symm
      simp [updateRegion, hpk, lookupRegion, List.find?, hpq]
    | false =>
      cases hpq : p.1 == q with
      | true => simp [updateRegion, hpk, lookupRegion, List.find?, hpq]
      | false =>
        simp only [updateRegion, hpk, Bool.false_eq_true, if_false]
        simp only [lookupRegion, List.find?, hpq] at ih ⊢
        exact ih

/-- The keys after an update: unchanged when the key was present, the key
appended when it was not. -/
theorem keys_update (m : RegionsInfo) (k : String) (f : RegionInfo → RegionInfo) :
    (updateRegion m k f).map Prod.fst =
      if m.any (fun p => p.1 == k) then m.map Prod.fst else m.map Prod.fst ++ [k] := by
  induction m with
  | nil => simp [updateRegion]
  | cons p m ih =>
    cases hpk : p.1 == k with
    | true => simp [updateRegion, hpk, List.any_cons]
    | false =>
      cases ham : m.any (fun p => p.1 == k) with
      | true => simp [updateRegion, hpk, List.any_cons, ham, ih]
      | false => simp [updateRegion, hpk, List.any_cons, ham, ih]

/-- `updateRegion` keeps the keys of the accumulator without duplicates:
the map invariant behind one-row-per-region. -/
theorem nodup_update (m : RegionsInfo) (k : String) (f : RegionInfo → RegionInfo)
    (h : (m.map Prod.fst).Nodup) : ((updateRegion m k f).map Prod.fst).Nodup := by
  rw [keys_update]
  cases ham : m.any (fun p => p.1 == k) with
  | true => simpa using h
  | false =>
    have hk : k ∉ m.map Prod.fst := by
      intro hmem
      rw [List.mem_map] at hmem
      obtain ⟨p, hpm, hfst⟩ := hmem
      have : m.any (fun p => p.1 == k) = true :=
        List.any_eq_true.2 ⟨p, hpm, by simp [hfst]⟩
      rw [ham] at this
      exact Bool.false_ne_true this
    simp [List.nodup_append, h, hk]

/-- The attribute step keeps the keys duplicate-free. -/
theorem nodup_applyRegionAttrib (pN npN ntN rid : String) (m : RegionsInfo)
    (a : RegionAttributesAttribute) (h : (m.map Prod.fst).Nodup) :
    ((applyRegionAttrib pN npN ntN rid m a).map Prod.fst).Nodup := by
  dsimp only [applyRegionAttrib]
  split <;> split <;> split <;> (repeat apply nodup_update) <;> exact h

/-- Processing one type-3 region keeps the keys duplicate-free. -/
theorem nodup_processRegion3 (pN npN ntN : String) (m : RegionsInfo) (r : Region)
    (h : (m.map Prod.fst).Nodup) :
    ((processRegion3 pN npN ntN m r).map Prod.fst).Nodup := by
  dsimp only [processRegion3]
  have h1 : ((match path_file_name ((r.image_location).getD "") with
      | some lp => updateRegion m r.id (fun ri => { ri with image_location := some lp })
      | none => m).map Prod.fst).Nodup := by
    split
    · exact nodup_update _ _ _ h
    · exact h
  split
  · exact foldl_preserve (fun m => (m.map Prod.fst).Nodup) _
      (fun m a hm => nodup_applyRegionAttrib pN npN ntN r.id m a hm) _ _ h1
  · exact h1

/-- Processing one layer keeps the keys of the accumulator
duplicate-free. -/
theorem nodup_processLayer (fp : String) (st : RegionsInfo × List String)
    (layer : AnnotationLayer) (h : ((st.1).map Prod.fst).Nodup) :
    (((processLayer fp st layer).1).map Prod.fst).Nodup := by
  dsimp only [processLayer]
  split
  · exact foldl_preserve (fun m => (m.map Prod.fst).Nodup) _
      (fun (m : RegionsInfo) (r : Region) hm => nodup_update m r.id _ hm) _ _ h
  · split
    · split
      · split
        · exact h
        · exact h
        · exact h
        · exact foldl_preserve (fun m => (m.map Prod.fst).Nodup) _
            (fun m r hm => nodup_processRegion3 _ _ _ m r hm) _ _ h
      · exact h
    · exact h

/-- Reconciling a whole file yields an accumulator with duplicate-free
keys. -/
theorem nodup_processFile (fp : String) (ann : Annotations) :
    (((processFile fp ann).1).map Prod.fst).Nodup := by
  dsimp only [processFile]
  exact foldl_preserve (fun st => ((st.1).map Prod.fst).Nodup) (processLayer fp)
    (fun st l hst => nodup_processLayer fp st l hst) ann.annotation_vec ([], []) (by simp)

/-- The attribute step never touches a key other than the region's own
id. -/
theorem applyRegionAttrib_other (pN npN ntN rid q : String) (m : RegionsInfo)
    (a : RegionAttributesAttribute) (hq : q ≠ rid) :
    lookupRegion (applyRegionAttrib pN npN ntN rid m a) q = lookupRegion m q := by
  dsimp only [applyRegionAttrib]
  split <;> split <;> split <;> simp [lookup_update_other _ rid q _ hq]

/-- Folding the attribute loop never touches a key other than the
region's own id. -/
theorem lookup_foldl_attribs (pN npN ntN rid q : String) (hq : q ≠ rid) :
    ∀ (l : List RegionAttributesAttribute) (m : RegionsInfo),
      lookupRegion (l.foldl (applyRegionAttrib pN npN ntN rid) m) q = lookupRegion m q
  | [], _ => rfl
  | a :: l, m => by
    rw [List.foldl_cons, lookup_foldl_attribs pN npN ntN rid q hq l _,
      applyRegionAttrib_other pN npN ntN rid q m a hq]

/-- Processing one type-3 region leaves every other key of the
accumulator unchanged: all its writes are keyed by the region's own id. -/
theorem processRegion3_other (pN npN ntN q : String) (m : RegionsInfo) (r : Region)
    (hq : q ≠ r.id) :
    lookupRegion (processRegion3 pN npN ntN m r) q = lookupRegion m q := by
  dsimp only [processRegion3]
  have h1 : lookupRegion (match path_file_name ((r.image_location).getD "") with
      | some lp => updateRegion m r.id (fun ri => { ri with image_location := some lp })
      | none => m) q = lookupRegion m q := by
    split
    · exact lookup_update_other _ _ _ _ hq
    · rfl
  split
  · rw [lookup_foldl_attribs pN npN ntN r.id q hq _ _, h1]
  · exact h1

/-- An update whose setter leaves the image-location field alone preserves
the image-location invariant. -/
theorem imgInv_update (rid : String) (x : Option String) (f : RegionInfo → RegionInfo)
    (hf : ∀ ri, (f ri).image_location = ri.image_location)
    (m : RegionsInfo) (h : ImgInv rid x m) : ImgInv rid x (updateRegion m rid f) := by
  constructor
  · intro ri hri
    rw [lookup_update_self] at hri
    injection hri with hri
    subst hri
    rw [hf]
    cases hl : lookupRegion m rid with
    | some p => exact h.1 p hl
    | none => exact (h.2 hl).symm
  · intro hnone
    rw [lookup_update_self] at hnone
    cases hnone

/-- The attribute step only writes numeric fields, so it preserves the
image-location invariant. -/
theorem imgInv_applyRegionAttrib (pN npN ntN rid : String) (x : Option String)
    (m : RegionsInfo) (a : RegionAttributesAttribute) (h : ImgInv rid x m) :
    ImgInv rid x (applyRegionAttrib pN npN ntN rid m a) := by
  have hif : ∀ (c : Bool) (g : RegionInfo → RegionInfo),
      (∀ ri, (g ri).image_location = ri.image_location) →
      ∀ m', ImgInv rid x m' →
      ImgInv rid x (if c = true then updateRegion m' rid g else m') := by
    intro c g hg m' hm'
    cases c
    · simpa using hm'
    · simpa using imgInv_update rid x g hg m' hm'
  dsimp only [applyRegionAttrib]
  exact hif (a.name == ntN)
    (fun ri => { ri with num_total := some (parseF32orNaN a.value) }) (fun ri => rfl) _
    (hif (a.name == npN)
      (fun ri => { ri with num_positive := some (parseF32orNaN a.value) }) (fun ri => rfl) _
      (hif (a.name == pN)
        (fun ri => { ri with positivity := some (parseF32orNaN a.value) }) (fun ri => rfl) _ h))

/-- Unfolding of the layer step for a type-"4" layer: fold the label
writes over the regions, leave the warnings alone. -/
theorem processLayer_type4 (fp : String) (st : RegionsInfo × List String)
    (layer : AnnotationLayer) (h4 : layer.annotation_type = "4") :
    processLayer fp st layer =
      (layer.regions.region.foldl
        (fun m r => updateRegion m r.id (fun ri => { ri with text_label := some r.text })) st.1,
       st.2) := by
  dsimp only [processLayer]
  rw [h4, if_pos rfl]

/-- When a region has no image location, processing it is just the fold of
the attribute loop (the image step does nothing on the empty path). -/
theorem processRegion3_no_image (pN npN ntN : String) (m : RegionsInfo) (r : Region)
    (him : r.image_location = none) :
    processRegion3 pN npN ntN m r =
      (match r.attributes.attribute_vec with
       | some attrs => attrs.foldl (applyRegionAttrib pN npN ntN r.id) m
       | none => m) := by
  dsimp only [processRegion3]
  rw [him]
  cases r.attributes.attribute_vec <;> rfl

/-- An attribute whose name matches the positivity slot id and neither of
the other two slot ids performs exactly the positivity write. -/
theorem applyRegionAttrib_pos_only (pN npN ntN rid : String) (m : RegionsInfo)
    (a : RegionAttributesAttribute) (ha : a.name = pN) (hnp : pN ≠ npN) (hnt : pN ≠ ntN) :
    applyRegionAttrib pN npN ntN rid m a =
      updateRegion m rid (fun ri => { ri with positivity := some (parseF32orNaN a.value) }) := by
  have h1 : (a.name == pN) = true := by simp [ha]
  have h2 : (a.name == npN) = false := by
    rw [ha]
    exact beq_eq_false_iff_ne.2 hnp
  have h3 : (a.name == ntN) = false := by
    rw [ha]
    exact beq_eq_false_iff_ne.2 hnt
  simp [applyRegionAttrib, h1, h2, h3]

/-! ## The claims -/

/-- C1 counterexample: in `demoDocC1` the type-4 region has id `1` and the
type-3 region has own id `2` (its XML back-reference would say
`InputRegionId="1"`, but the deserialized model keeps no such field). The
computed statistics end up in a second record keyed by the record's own id
`2`, while record `1` keeps only the label: label and statistics are two
rows, not one, so the statistics are not keyed by the back-reference
identifier. -/
theorem c1_counterexample :
    (processFile "slide1.xml" demoDocC1).1 =
      [("1", ⟨some "Tumor", none, none, none, none⟩),
       ("2", ⟨none, none, some (F32.num "100"), some (F32.num "500"), some (F32.num "0.42")⟩)] ∧
    (processFile "slide1.xml" demoDocC1).2 = [] := by
  decide

/-- C1 (amended): every write of a RegionRecord processed in a valid
type-3 layer goes to the record keyed by the record's own identifier:
processing the record leaves the record stored under every other key
unchanged. -/
theorem c1_amended (pN npN ntN : String) (m : RegionsInfo) (r : Region) (q : String)
    (hq : q ≠ r.id) :
    lookupRegion (processRegion3 pN npN ntN m r) q = lookupRegion m q :=
  processRegion3_other pN npN ntN q m r hq

/-- Witness for the amended C1 at a concrete input. -/
theorem c1_amended_witness :
    lookupRegion (processRegion3 "A" "B" "E" [] demoRegionC1) "1" = lookupRegion [] "1" :=
  c1_amended "A" "B" "E" [] demoRegionC1 "1" (by decide)

/-- C2 counterexample: `demoDocC2` is a type-3 layer whose header list has
no `Nwp =` and no `Nsp =` header, yet the layer is processed - the region
contributes its total-count statistic and no warning is emitted - so the
five-slot requirement of the claim does not hold. -/
theorem c2_counterexample :
    processFile "f.xml" demoDocC2 =
      ([("7", ⟨none, none, none, some (F32.num "500"), none⟩)], []) := by
  decide

/-- C2 (amended): the reconciler resolves three semantic slots by name
prefix (`Positivity =`, `Np  =`, `NTotal =`); if any of the three has no
matching header the entire layer is skipped (the map is unchanged) and
exactly one warning naming the missing slot and the file is produced. -/
theorem c2_amended (fp : String) (st : RegionsInfo × List String) (layer : AnnotationLayer)
    (hdrs : List AttributeHeader) (h3 : layer.annotation_type = "3")
    (hh : layer.regions.region_attribute_headers.attribute_header = some hdrs)
    (hmiss : hdrs.find? (fun a => strStartsWith a.name "Positivity =") = none ∨
      hdrs.find? (fun a => strStartsWith a.name "Np  =") = none ∨
      hdrs.find? (fun a => strStartsWith a.name "NTotal =") = none) :
    (processLayer fp st layer).1 = st.1 ∧
    ∃ w, (processLayer fp st layer).2 = st.2 ++ [w] ∧
      (w = "Missing positivity in " ++ fp ∨ w = "Missing number positive in " ++ fp ∨
        w = "Missing number total in " ++ fp) := by
  rcases hmiss with hp | hnp | hnt
  · exact ⟨by simp [processLayer, h3, hh, hp], "Missing positivity in " ++ fp,
      by simp [processLayer, h3, hh, hp], Or.inl rfl⟩
  · cases hp : hdrs.find? (fun a => strStartsWith a.name "Positivity =") with
    | none =>
      exact ⟨by simp [processLayer, h3, hh, hp], "Missing positivity in " ++ fp,
        by simp [processLayer, h3, hh, hp], Or.inl rfl⟩
    | some pa =>
      exact ⟨by simp [processLayer, h3, hh, hp, hnp], "Missing number positive in " ++ fp,
        by simp [processLayer, h3, hh, hp, hnp], Or.inr (Or.inl rfl)⟩
  · cases hp : hdrs.find? (fun a => strStartsWith a.name "Positivity =") with
    | none =>
      exact ⟨by simp [processLayer, h3, hh, hp], "Missing positivity in " ++ fp,
        by simp [processLayer, h3, hh, hp], Or.inl rfl⟩
    | some pa =>
      cases hnp : hdrs.find? (fun a => strStartsWith a.name "Np  =") with
      | none =>
        exact ⟨by simp [processLayer, h3, hh, hp, hnp], "Missing number positive in " ++ fp,
          by simp [processLayer, h3, hh, hp, hnp], Or.inr (Or.inl rfl)⟩
      | some npa =>
        exact ⟨by simp [processLayer, h3, hh, hp, hnp, hnt], "Missing number total in " ++ fp,
          by simp [processLayer, h3, hh, hp, hnp, hnt], Or.inr (Or.inr rfl)⟩

/-- Witness for the amended C2: a layer missing the positivity header
leaves the accumulator unchanged. -/
theorem c2_amended_witness : (processLayer "f.xml" ([], []) demoLayerC2).1 = [] :=
  (c2_amended "f.xml" ([], []) demoLayerC2
    [mkHeader "B" "Np  = Number positive pixels", mkHeader "E" "NTotal = Total number pixels"]
    rfl rfl (Or.inl (by decide))).1

/-- C3 counterexample: a batch of a malformed file followed by a good file
aborts with no rows at all, although the good file alone would produce a
row - a parse failure in one file kills the whole batch instead of being
skipped. -/
theorem c3_counterexample :
    runBatch demoDeserialize [("bad.xml", some "<oops"), ("good.xml", some "GOOD")] =
      ([], true) ∧
    runBatch demoDeserialize [("good.xml", some "GOOD")] =
      (["good.xml, , 1, Tumor, NaN, NaN, NaN"], false) := by
  decide

/-- C3 (amended): a failed file read is replaced by empty content, but any
deserialization failure (including on that empty substitute) panics via
`.expect` and aborts the entire batch: no rows are emitted for that file
or for any remaining file. -/
theorem c3_amended (d : String → Option Annotations) (f : String) (c : Option String)
    (rest : List (String × Option String)) (h : parse_xml d c = none) :
    runBatch d ((f, c) :: rest) = ([], true) := by
  simp [runBatch, h]

/-- Witness for the amended C3 at a concrete input. -/
theorem c3_amended_witness :
    runBatch demoDeserialize [("bad.xml", some "<oops")] = ([], true) :=
  c3_amended demoDeserialize "bad.xml" (some "<oops") [] (by decide)

/-- C4 counterexample: the header the program prints is not the ten-column
header the claim states. -/
theorem c4_counterexample :
    headerRow ≠ "Filename,Slide Name,Region ID,text label,positivity,num weak positive,num positive,num strong positive,num all positive,num total" := by
  decide

/-- C4 (amended): the header row is the seven-column
`Filename,Slide name,Region ID,text label,positivity,num positive,num total`,
and every data row consists of exactly the seven fields of `rowFields` -
source filename, stored image-location basename (empty if unset), region
id, text label as stored (untrimmed, empty if unset), positivity, num
positive and num total (each NaN if unset) - joined by a comma and a
space. -/
theorem c4_amended :
    headerRow = "Filename,Slide name,Region ID,text label,positivity,num positive,num total" ∧
    ∀ (f rid : String) (ri : RegionInfo), emitRow f rid ri = specDataRow f rid ri := by
  refine ⟨rfl, fun f rid ri => ?_⟩
  simp [emitRow, specDataRow, rowFields, String.intercalate, String.intercalate.go,
    String.append_assoc]

/-- C5 counterexample: the row emitted for the spec's own scenario record
has seven comma-separated fields, not the ten of the claim, and is not the
row with the derived `num all positive` value `115` the spec predicts. -/
theorem c5_counterexample :
    (List.splitOn ',' (emitRow "slide1.xml" "1" demoInfoC5).data).length = 7 ∧
    emitRow "slide1.xml" "1" demoInfoC5 ≠ "slide1.xml,slide1.svs,1,Tumor,0.42,10,100,5,115,500" := by
  decide

/-- C5 (amended): no derived total-positive count exists - a data row has
exactly seven fields, and the positive-count field is emitted as `NaN`
when unset (not as a sum with default zero). -/
theorem c5_amended (f rid : String) (ri : RegionInfo) :
    (rowFields f rid ri).length = 7 ∧
    (ri.num_positive = none → (rowFields f rid ri).getD 5 "" = "NaN") := by
  refine ⟨rfl, fun h => ?_⟩
  simp [rowFields, h, displayF32]

/-- Witness for the amended C5 at a concrete record. -/
theorem c5_amended_witness :
    (rowFields "f.xml" "1" RegionInfo.new).length = 7 ∧
    (rowFields "f.xml" "1" RegionInfo.new).getD 5 "" = "NaN" :=
  ⟨(c5_amended "f.xml" "1" RegionInfo.new).1, (c5_amended "f.xml" "1" RegionInfo.new).2 rfl⟩

/-- C6 counterexample: in `demoDocC6` all five spec header names are
present and the region's only attribute names the id of the `Nwp =`
header, yet processing stores nothing at all - the attribute matches none
of the (three) resolved slots, so it is not matched to one of five slots
as the claim states. -/
theorem c6_counterexample : processFile "f.xml" demoDocC6 = ([], []) := by
  decide

/-- C6 (amended): a generic RegionAttribute is matched against the three
resolved slot identifiers (by identifier, not by human-readable name); on
a match its value is trimmed and parsed as a float, and on parse failure
the field is stored as NaN for that field only, while every other key of
the accumulator is untouched - the region and layer are not aborted. -/
theorem c6_amended (pN npN ntN : String) (m : RegionsInfo) (r : Region)
    (a : RegionAttributesAttribute) (him : r.image_location = none)
    (hat : r.attributes.attribute_vec = some [a]) (ha : a.name = pN)
    (hnp : pN ≠ npN) (hnt : pN ≠ ntN) (hbad : parsesAsF32 (strTrim a.value) = false) :
    lookupRegion (processRegion3 pN npN ntN m r) r.id =
      some { ((lookupRegion m r.id).getD RegionInfo.new) with positivity := some F32.nan } ∧
    ∀ q, q ≠ r.id → lookupRegion (processRegion3 pN npN ntN m r) q = lookupRegion m q := by
  have hparse : parseF32orNaN a.value = F32.nan := by
    simp [parseF32orNaN, hbad]
  constructor
  · have heq : processRegion3 pN npN ntN m r = applyRegionAttrib pN npN ntN r.id m a := by
      rw [processRegion3_no_image pN npN ntN m r him, hat]
      rfl
    rw [heq, applyRegionAttrib_pos_only pN npN ntN r.id m a ha hnp hnt, lookup_update_self,
      hparse]
  · intro q hq
    exact processRegion3_other pN npN ntN q m r hq

/-- Witness for the amended C6: an unparseable positivity value stores NaN
for that field. -/
theorem c6_amended_witness :
    lookupRegion (processRegion3 "A" "B" "E" [] demoRegionC6) demoRegionC6.id =
      some { ((lookupRegion [] demoRegionC6.id).getD RegionInfo.new) with
             positivity := some F32.nan } :=
  (c6_amended "A" "B" "E" [] demoRegionC6 (mkAttrib "A" "not-a-number") rfl rfl rfl
    (by decide) (by decide) (by decide)).1

/-- C7 counterexample: the same reconciled map, visited in two different
iteration orders (both permutations of each other), produces different row
lists - the emitted output depends on the accumulator's internal iteration
order and is not sorted by region id. -/
theorem c7_counterexample :
    cexEntriesA.Perm cexEntriesB ∧
    emitFileRows "f.xml" cexEntriesA ≠ emitFileRows "f.xml" cexEntriesB :=
  ⟨List.Perm.swap _ _ _, by decide⟩

/-- C7 (amended): the rows of a file are the map entries in the
accumulator's unspecified iteration order; what is preserved across
reruns is only the multiset of rows - permuted entries give permuted
rows. -/
theorem c7_amended (f : String) (entries1 entries2 : RegionsInfo)
    (h : entries1.Perm entries2) :
    (emitFileRows f entries1).Perm (emitFileRows f entries2) := by
  induction h with
  | nil => exact List.Perm.refl _
  | cons x _ ih => exact List.Perm.cons _ ih
  | swap x y l => exact List.Perm.swap _ _ _
  | trans _ _ ih1 ih2 => exact List.Perm.trans ih1 ih2

/-- Witness for the amended C7 at concrete entry lists. -/
theorem c7_amended_witness :
    (emitFileRows "f.xml" cexEntriesA).Perm (emitFileRows "f.xml" cexEntriesB) :=
  c7_amended "f.xml" cexEntriesA cexEntriesB (List.Perm.swap _ _ _)

/-- C8: for every file, the reconciled accumulator has duplicate-free
region ids (every write goes through find-or-create on the id), and the
emitter produces exactly one row per map entry - so each region id yields
at most one data row. -/
theorem c8_confirmed (fp : String) (ann : Annotations) :
    (((processFile fp ann).1).map Prod.fst).Nodup ∧
    (emitFileRows fp ((processFile fp ann).1)).length = ((processFile fp ann).1).length :=
  ⟨nodup_processFile fp ann, by simp [emitFileRows]⟩

/-- C9: a second write to the same scalar field silently wins: (a) a
type-4 layer writing the same region id twice leaves the label of the
last record in document order and emits no warning; (b) two attributes of
one type-3 region matching the same (positivity) slot leave the parsed
value of the last attribute in document order. -/
theorem c9_confirmed :
    (∀ (fp : String) (st : RegionsInfo × List String) (layer : AnnotationLayer)
        (r1 r2 : Region),
        layer.annotation_type = "4" → layer.regions.region = [r1, r2] → r2.id = r1.id →
        lookupRegion (processLayer fp st layer).1 r1.id =
          some { ((lookupRegion st.1 r1.id).getD RegionInfo.new) with
                 text_label := some r2.text } ∧
        (processLayer fp st layer).2 = st.2) ∧
    (∀ (pN npN ntN : String) (m : RegionsInfo) (r : Region)
        (a1 a2 : RegionAttributesAttribute),
        r.image_location = none → r.attributes.attribute_vec = some [a1, a2] →
        a1.name = pN → a2.name = pN → pN ≠ npN → pN ≠ ntN →
        lookupRegion (processRegion3 pN npN ntN m r) r.id =
          some { ((lookupRegion m r.id).getD RegionInfo.new) with
                 positivity := some (parseF32orNaN a2.value) }) := by
  constructor
  · intro fp st layer r1 r2 h4 hreg hid
    rw [processLayer_type4 fp st layer h4]
    refine ⟨?_, rfl⟩
    dsimp only
    rw [hreg]
    simp only [List.foldl_cons, List.foldl_nil]
    rw [hid, lookup_update_self, lookup_update_self]
    rfl
  · intro pN npN ntN m r a1 a2 him hat ha1 ha2 hnp hnt
    have heq : processRegion3 pN npN ntN m r =
        applyRegionAttrib pN npN ntN r.id (applyRegionAttrib pN npN ntN r.id m a1) a2 := by
      rw [processRegion3_no_image pN npN ntN m r him, hat]
      rfl
    rw [heq, applyRegionAttrib_pos_only pN npN ntN r.id m a1 ha1 hnp hnt,
      applyRegionAttrib_pos_only pN npN ntN r.id _ a2 ha2 hnp hnt,
      lookup_update_self, lookup_update_self]
    rfl

/-- Witness for C9: the duplicated label write of `demoLayerC9` keeps the
second label and produces no warning. -/
theorem c9_witness :
    lookupRegion (processLayer "f.xml" ([], []) demoLayerC9).1 "1" =
      some { ((lookupRegion ([] : RegionsInfo) "1").getD RegionInfo.new) with
             text_label := some "second" } ∧
    (processLayer "f.xml" ([], []) demoLayerC9).2 = [] :=
  c9_confirmed.1 "f.xml" ([], []) demoLayerC9 (mkRegion "1" "first" none none)
    (mkRegion "1" "second" none none) rfl rfl rfl

/-- C10: the image-location handling never fails: every record stored
under the region's id after processing carries the basename of the
region's image-location path when it has a final component, and otherwise
whatever image-location was stored before (none if nothing was); an unset
image-location field is emitted exactly like the empty string. -/
theorem c10_confirmed (pN npN ntN : String) (m : RegionsInfo) (r : Region) :
    (∀ ri, lookupRegion (processRegion3 pN npN ntN m r) r.id = some ri →
        ri.image_location =
          (match path_file_name ((r.image_location).getD "") with
           | some b => some b
           | none => ((lookupRegion m r.id).getD RegionInfo.new).image_location)) ∧
    (∀ f rid ri, ri.image_location = none →
        emitRow f rid ri = emitRow f rid { ri with image_location := some "" }) := by
  constructor
  · have h1 : ImgInv r.id
        (match path_file_name ((r.image_location).getD "") with
         | some b => some b
         | none => ((lookupRegion m r.id).getD RegionInfo.new).image_location)
        (match path_file_name ((r.image_location).getD "") with
         | some lp => updateRegion m r.id (fun ri => { ri with image_location := some lp })
         | none => m) := by
      cases hpf : path_file_name ((r.image_location).getD "") with
      | some lp =>
        constructor
        · intro ri hri
          rw [lookup_update_self] at hri
          injection hri with hri
          subst hri
          rfl
        · intro hnone
          rw [lookup_update_self] at hnone
          cases hnone
      | none =>
        constructor
        · intro ri hri
          rw [hri]
          rfl
        · intro hnone
          rw [hnone]
          rfl
    have hinv : ImgInv r.id
        (match path_file_name ((r.image_location).getD "") with
         | some b => some b
         | none => ((lookupRegion m r.id).getD RegionInfo.new).image_location)
        (processRegion3 pN npN ntN m r) := by
      dsimp only [processRegion3]
      cases hattr : r.attributes.attribute_vec with
      | some attrs =>
        exact foldl_preserve _ (applyRegionAttrib pN npN ntN r.id)
          (fun m' a hm' => imgInv_applyRegionAttrib pN npN ntN r.id _ m' a hm') attrs _ h1
      | none => exact h1
    exact hinv.1
  · intro f rid ri h
    simp [emitRow, h]

/-- Witness for C10: a path with a directory prefix stores just the
basename. -/
theorem c10_witness :
    (⟨none, some "img.tif", none, none, none⟩ : RegionInfo).image_location =
      (match path_file_name ((demoRegionC10.image_location).getD "") with
       | some b => some b
       | none => ((lookupRegion [] demoRegionC10.id).getD RegionInfo.new).image_location) :=
  (c10_confirmed "A" "B" "E" [] demoRegionC10).1 ⟨none, some "img.tif", none, none, none⟩
    (by decide)

end ScopeXml
